import Mathlib

/-!
Verification of the NoPASARAN UPnP action primitives
(`nopasaran/primitives/action_primitives/upnp_primitives.py`).

The Python module defines a class `UpnpPrimitives` whose static methods are
invoked by a state-machine engine.  Each method receives a list of input
variable names, a list of output variable names, and the state machine; it
resolves inputs with `state_machine.get_variable_value` and reports results
with `state_machine.set_variable_value`.  The gateway device is driven
through a `miniupnpc.UPnP` object ("the client").

Shallow embedding used here:
* `PyVal` models the dynamically typed Python values that flow through the
  state machine (ints, strings, bools, None, lists, dicts, the opaque UPnP
  device object).
* `PyErr` models a raised Python exception that escapes an expression:
  `indexError` for list indexing past the end, `valueError` / `typeError`
  for failing `int(...)` conversions, `typeError` also for the unsupported
  `list @ function` operand pair, and `clientError msg` for an exception
  raised by a gateway-client (miniupnpc) call.  `nonTermination` is a model
  artifact marking that a `while True` probe loop did not finish within the
  fuel supplied to the embedding; the Python original would still be
  looping at that point.
* `Client` gives one behaviour of the gateway device: for every method the
  primitives invoke, either a returned value or a raised exception,
  deterministically in the call arguments.
* Each primitive becomes a function producing a `RunResult`: the ordered
  list of `set_variable_value` writes (output slot index, value), the
  ordered list of device calls issued, and the exception propagated to the
  invoking flow, if any.

Inputs are modelled as the list of already-resolved values: the engine
resolves each referenced variable name through the execution context, and
indexing `inputs[i]` (or `args[i]` on the sliced tail) past the end of the
supplied argument list raises `IndexError` exactly as in Python.
-/

inductive PyVal where
  | pyNone
  | pyInt (n : Int)
  | pyStr (s : String)
  | pyBool (b : Bool)
  | pyList (xs : List PyVal)
  | pyDict (entries : List (String × PyVal))
  | upnpDevice

/-- Python truthiness of a `PyVal`.  `miniupnpc.UPnP()` instances define no
`__bool__`/`__len__`, so the device object is always truthy. -/
def truthy : PyVal → Bool
  | PyVal.pyNone => false
  | PyVal.pyInt n => n ≠ 0
  | PyVal.pyStr s => s ≠ ""
  | PyVal.pyBool b => b
  | PyVal.pyList xs => ¬ xs.isEmpty
  | PyVal.pyDict es => ¬ es.isEmpty
  | PyVal.upnpDevice => true

inductive PyErr where
  | indexError
  | valueError
  | typeError
  | nameError
  | clientError (msg : String)
  | nonTermination
deriving DecidableEq, Repr

/-- Python `int(v)`.  Ints pass through, bools coerce to 0/1, strings are
parsed as integer literals (`valueError` on failure; `String.toInt?` is our
model of the literal syntax accepted by `int`), and every other type raises
`TypeError`. -/
def pyIntOf : PyVal → Except PyErr Int
  | PyVal.pyInt n => Except.ok n
  | PyVal.pyBool b => Except.ok (if b then 1 else 0)
  | PyVal.pyStr s =>
    match s.toInt? with
    | some n => Except.ok n
    | none => Except.error PyErr.valueError
  | _ => Except.error PyErr.typeError

/-- Python `isinstance(v, int)`.  `bool` is a subclass of `int` in Python,
so booleans satisfy the check; numeric strings do not. -/
def isInstInt : PyVal → Bool
  | PyVal.pyInt _ => true
  | PyVal.pyBool _ => true
  | _ => false

/-- One device call issued by a primitive, with the arguments that were
passed to the miniupnpc method.  The constant description / remote-host
arguments of the Python call sites are fixed strings and are omitted. -/
inductive ClientCall where
  | discoverCall
  | selectigd
  | externalipaddress
  | addportmapping (extPort : Int) (protocol : PyVal) (lanAddr : PyVal) (intPort : Int)
  | deleteportmapping (extPort : Int) (protocol : PyVal)
  | addanyportmapping (suggested : Int) (protocol : PyVal) (internalIp : PyVal)
      (intPort : Int) (duration : Int)
  | statusinfo
  | getgenericportmapping (idx : Nat)
  | getListOfPortMappings (idx : Nat) (cnt : Nat)
  | addPinhole (remoteIp : PyVal) (remotePort : Int) (internalIp : PyVal)
      (intPort : Int) (protocol : PyVal) (lease : Int)
  | updatePinhole (uid : PyVal) (lease : Int)
  | checkPinholeWorking (uid : PyVal)
  | getPinholePackets (uid : PyVal)
  | deletePinhole (uid : PyVal)
  | getFirewallStatus
  | getOutboundPinholeTimeout (remoteIp : PyVal) (remotePort : Int)
      (internalIp : PyVal) (intPort : Int) (protocol : PyVal)

/-- One behaviour of the gateway client (the `miniupnpc.UPnP` object): for
each method a returned value or a raised exception, deterministic in the
arguments.  `lanaddr` and `urlbase` are plain attributes and cannot raise. -/
structure Client where
  discoverDev : Except PyErr Int
  selectigd : Except PyErr Unit
  lanaddr : PyVal
  externalipaddress : Except PyErr PyVal
  addportmapping : Int → PyVal → PyVal → Int → Except PyErr PyVal
  deleteportmapping : Int → PyVal → Except PyErr PyVal
  addanyportmapping : Int → PyVal → PyVal → Int → Int → Except PyErr PyVal
  statusinfo : Except PyErr (PyVal × PyVal × PyVal)
  getgenericportmapping : Nat → Except PyErr PyVal
  getListOfPortMappings : Nat → Nat → Except PyErr (List PyVal)
  addPinhole : PyVal → Int → PyVal → Int → PyVal → Int → Except PyErr PyVal
  updatePinhole : PyVal → Int → Except PyErr PyVal
  checkPinholeWorking : PyVal → Except PyErr PyVal
  getPinholePackets : PyVal → Except PyErr PyVal
  deletePinhole : PyVal → Except PyErr PyVal
  getFirewallStatus : Except PyErr (PyVal × PyVal)
  getOutboundPinholeTimeout : PyVal → Int → PyVal → Int → PyVal → Except PyErr PyVal
  urlbase : PyVal

/-- Observable outcome of invoking one primitive: the ordered
`set_variable_value` writes (output slot index, value), the ordered device
calls, and the exception propagated to the invoking flow if any
(`none` when the primitive returns normally). -/
structure RunResult where
  writes : List (Nat × PyVal)
  calls : List ClientCall
  err : Option PyErr

/-- Run outcome with no writes and no device calls, optionally an
escaping exception. -/
def noEffect (e : Option PyErr) : RunResult := ⟨[], [], e⟩

/-- Value held by an output slot after the run: the last write to the slot,
or `none` when the primitive never wrote it. -/
def slotValue (r : RunResult) (k : Nat) : Option PyVal :=
  (r.writes.filter (fun w => w.1 = k)).getLast?.map (fun w => w.2)

/-- Source: `discover` (upnp_primitives.py lines 10-43).  Zero inputs,
three outputs.  Creates the device object, runs discovery, and only when
`num_devices > 0` selects the IGD and writes the device object, the LAN
address attribute and the external IP to the three output slots. -/
def discover_run (c : Client) : RunResult :=
  match c.discoverDev with
  | Except.error e => ⟨[], [ClientCall.discoverCall], some e⟩
  | Except.ok numDevices =>
    if numDevices > 0 then
      match c.selectigd with
      | Except.error e => ⟨[], [ClientCall.discoverCall, ClientCall.selectigd], some e⟩
      | Except.ok _ =>
        match c.externalipaddress with
        | Except.error e =>
          ⟨[], [ClientCall.discoverCall, ClientCall.selectigd,
                ClientCall.externalipaddress], some e⟩
        | Except.ok extIp =>
          ⟨[(0, PyVal.upnpDevice), (1, c.lanaddr), (2, extIp)],
           [ClientCall.discoverCall, ClientCall.selectigd,
            ClientCall.externalipaddress], none⟩
    else ⟨[], [ClientCall.discoverCall], none⟩

/-- Source: `add_port_mapping` (lines 47-79).  Six inputs, two outputs.
Binds all six inputs, then under a truthy device calls
`addportmapping(int(external_port), protocol, lan_addr, int(internal_port),
...)`; only a truthy result writes `external_ip` and `external_port` to the
two output slots.  No exception handler: `int(...)` failures and client
exceptions propagate. -/
def add_port_mapping_run (c : Client) (inputs : List PyVal) : RunResult :=
  match inputs with
  | upnp :: lanAddr :: externalIp :: externalPort :: internalPort :: protocol :: _ =>
    if truthy upnp then
      match pyIntOf externalPort with
      | Except.error e => noEffect (some e)
      | Except.ok ep =>
        match pyIntOf internalPort with
        | Except.error e => noEffect (some e)
        | Except.ok ip =>
          match c.addportmapping ep protocol lanAddr ip with
          | Except.error e =>
            ⟨[], [ClientCall.addportmapping ep protocol lanAddr ip], some e⟩
          | Except.ok result =>
            if truthy result then
              ⟨[(0, externalIp), (1, externalPort)],
               [ClientCall.addportmapping ep protocol lanAddr ip], none⟩
            else ⟨[], [ClientCall.addportmapping ep protocol lanAddr ip], none⟩
    else noEffect none
  | _ => noEffect (some PyErr.indexError)

/-- Source: `delete_port_mapping` (lines 83-107).  The `if upnp:` block of
this method is dedented to class level (lines 101-106), so the function
body consists only of the three input bindings: it resolves `inputs[0]`,
`int(inputs[1])` and `inputs[2]` and returns without any device call and
without writing its declared success-flag output.  (The escaped class-level
`if upnp:` statement itself raises `NameError` when the module is
imported.) -/
def delete_port_mapping_run (_c : Client) (inputs : List PyVal) : RunResult :=
  match inputs with
  | _upnp :: externalPort :: _protocol :: _ =>
    match pyIntOf externalPort with
    | Except.error e => noEffect (some e)
    | Except.ok _ => noEffect none
  | _ => noEffect (some PyErr.indexError)

/-- Source: `add_any_port_mapping` (lines 174-212).  Six inputs, one
output.  Binding already applies `int(...)` to internal port, suggested
external port and duration; under a truthy device it calls
`addanyportmapping` and writes the returned value — whatever it is, with no
truthiness test — to the single output slot.  No exception handler: a
client exception propagates and skips the write. -/
def add_any_port_mapping_run (c : Client) (inputs : List PyVal) : RunResult :=
  match inputs with
  | upnp :: internalIp :: internalPort :: suggestedPort :: protocol :: duration :: _ =>
    match pyIntOf internalPort with
    | Except.error e => noEffect (some e)
    | Except.ok ip =>
      match pyIntOf suggestedPort with
      | Except.error e => noEffect (some e)
      | Except.ok sp =>
        match pyIntOf duration with
        | Except.error e => noEffect (some e)
        | Except.ok dur =>
          if truthy upnp then
            match c.addanyportmapping sp protocol internalIp ip dur with
            | Except.error e =>
              ⟨[], [ClientCall.addanyportmapping sp protocol internalIp ip dur], some e⟩
            | Except.ok actualPort =>
              ⟨[(0, actualPort)],
               [ClientCall.addanyportmapping sp protocol internalIp ip dur], none⟩
          else noEffect none
  | _ => noEffect (some PyErr.indexError)

/-- Source: `delete_port_range` (lines 215-236).  Its body binds the four
inputs and then executes `deleted = []@staticmethod`, i.e. the matrix
multiplication `[] @ staticmethod`, which raises `TypeError` for every
invocation before the `if upnp:` guard is ever reached: the per-port
deletion loop that follows in the file (lines 291-302) was pasted into the
first `add_multiple_port_mappings` definition instead.  So the primitive
makes no device call and writes nothing, and the `TypeError` propagates. -/
def delete_port_range_run (_c : Client) (inputs : List PyVal) : RunResult :=
  match inputs with
  | _upnp :: portStart :: portEnd :: _protocol :: _ =>
    match pyIntOf portStart with
    | Except.error e => noEffect (some e)
    | Except.ok _ =>
      match pyIntOf portEnd with
      | Except.error e => noEffect (some e)
      | Except.ok _ => noEffect (some PyErr.typeError)
  | _ => noEffect (some PyErr.indexError)

/-- Python `v is None` identity test. -/
def isNone : PyVal → Bool
  | PyVal.pyNone => true
  | _ => false

/-- Python `bool(v)` as a `PyVal`. -/
def pyBoolOf (v : PyVal) : PyVal := PyVal.pyBool (truthy v)

/-- Source: `get_status` (lines 109-137).  One input, two outputs.  Under a
truthy device, a `try` block queries `statusinfo()` then
`externalipaddress()` and writes the external IP and a dict built from the
status triple; any exception is caught and only a diagnostic is printed. -/
def get_status_run (c : Client) (inputs : List PyVal) : RunResult :=
  match inputs with
  | upnp :: _ =>
    if truthy upnp then
      match c.statusinfo with
      | Except.error _ => ⟨[], [ClientCall.statusinfo], none⟩
      | Except.ok st =>
        match c.externalipaddress with
        | Except.error _ =>
          ⟨[], [ClientCall.statusinfo, ClientCall.externalipaddress], none⟩
        | Except.ok extIp =>
          ⟨[(0, extIp),
            (1, PyVal.pyDict [("status", st.1), ("uptime", st.2.1),
                              ("last_connection_error", st.2.2)])],
           [ClientCall.statusinfo, ClientCall.externalipaddress], none⟩
    else noEffect none
  | _ => noEffect (some PyErr.indexError)

/-- Source: the `while True` probe loop of `list_port_mappings`
(lines 156-165).  Probes `getgenericportmapping(i)` for i = fuel start,
start+1, ...; a raised exception or a `None` result ends the loop (both
are caught locally).  Returns the calls issued and `some` collected
mappings, or `none` when the loop did not finish within `fuel` (the Python
loop would still be running). -/
def probeMappings (c : Client) (fuel : Nat) (i : Nat) :
    List ClientCall × Option (List PyVal) :=
  match fuel with
  | 0 => ([], none)
  | Nat.succ f =>
    match c.getgenericportmapping i with
    | Except.error _ => ([ClientCall.getgenericportmapping i], some [])
    | Except.ok v =>
      if isNone v then ([ClientCall.getgenericportmapping i], some [])
      else
        let r := probeMappings c f (i + 1)
        (ClientCall.getgenericportmapping i :: r.1,
         r.2.map (fun xs => v :: xs))

/-- Source: `list_port_mappings` (lines 140-170).  One input, one output.
Under a truthy device the index-probe loop runs starting at 0, and the
collected mappings — possibly the empty list — are always written to the
single output slot once the loop ends. -/
def list_port_mappings_run (c : Client) (fuel : Nat) (inputs : List PyVal) : RunResult :=
  match inputs with
  | upnp :: _ =>
    if truthy upnp then
      match probeMappings c fuel 0 with
      | (cs, some xs) => ⟨[(0, PyVal.pyList xs)], cs, none⟩
      | (cs, none) => ⟨[], cs, some PyErr.nonTermination⟩
    else noEffect none
  | _ => noEffect (some PyErr.indexError)

/-- Outcome of the IGD:2 enumeration loop: normal end of list, a raised
exception (to be caught by the primitive's `try`), or fuel exhaustion. -/
inductive Igd2Out where
  | listDone (xs : List PyVal)
  | raised (e : PyErr)
  | fuelOut

/-- Source: the `while True` loop of `list_port_mappings_igd2`
(lines 530-537).  Probes `GetListOfPortMappings(index, 1)`; an empty
result breaks the loop, a non-empty result is appended entry by entry, and
an exception escapes the loop (there is no handler inside it). -/
def probeMappingsIgd2 (c : Client) (fuel : Nat) (i : Nat) :
    List ClientCall × Igd2Out :=
  match fuel with
  | 0 => ([], Igd2Out.fuelOut)
  | Nat.succ f =>
    match c.getListOfPortMappings i 1 with
    | Except.error e => ([ClientCall.getListOfPortMappings i 1], Igd2Out.raised e)
    | Except.ok entry =>
      if entry.isEmpty then
        ([ClientCall.getListOfPortMappings i 1], Igd2Out.listDone [])
      else
        let r := probeMappingsIgd2 c f (i + 1)
        (ClientCall.getListOfPortMappings i 1 :: r.1,
         match r.2 with
         | Igd2Out.listDone xs => Igd2Out.listDone (entry ++ xs)
         | o => o)

/-- Source: `list_port_mappings_igd2` (lines 513-543).  One input, one
output.  The `try` block wraps the whole probe loop AND the
`set_variable_value` write: when the loop ends by an empty result the
collected mappings are written, but when any probe raises, the `except`
branch only prints a diagnostic — the output slot is never written. -/
def list_port_mappings_igd2_run (c : Client) (fuel : Nat) (inputs : List PyVal) : RunResult :=
  match inputs with
  | upnp :: _ =>
    if truthy upnp then
      match probeMappingsIgd2 c fuel 0 with
      | (cs, Igd2Out.listDone xs) => ⟨[(0, PyVal.pyList xs)], cs, none⟩
      | (cs, Igd2Out.raised _) => ⟨[], cs, none⟩
      | (cs, Igd2Out.fuelOut) => ⟨[], cs, some PyErr.nonTermination⟩
    else noEffect none
  | _ => noEffect (some PyErr.indexError)

/-- Result of the batch-mapping loop of `add_multiple_port_mappings`: the
per-mapping result dicts accumulated so far, the device calls issued, and
the exception that escaped the loop, if any. -/
structure BatchOut where
  results : List PyVal
  calls : List ClientCall
  err : Option PyErr

/-- Source: the `while i < len(args)` loop of `add_multiple_port_mappings`
(effective second definition, lines 325-353).  One iteration reads
`int(args[i])` as the internal port, consumes the next token as the
external port exactly when `isinstance(value, int)` holds (otherwise the
external port defaults to the internal port), then reads `args[i]` as the
protocol — an access past the end of the argument list raises
`IndexError`.  Each complete group issues one `addportmapping` call and
appends a result dict recording the group and the raw device result; no
exception handler surrounds the loop, so `int(...)` errors, the
`IndexError` of a dangling group, and client exceptions all escape.  The
source loop advances an index through the argument list, consuming two or
three tokens per iteration; here the remaining tokens are matched by list
shape, the one- and two-token leftover cases spelling out exactly where
`args[i]` falls past the end of the list. -/
def batchLoop (c : Client) (internalIp : PyVal) : List PyVal → BatchOut
  | [] => ⟨[], [], none⟩
  | [t] =>
    match pyIntOf t with
    | Except.error e => ⟨[], [], some e⟩
    | Except.ok _ => ⟨[], [], some PyErr.indexError⟩
  | [t, u] =>
    match pyIntOf t with
    | Except.error e => ⟨[], [], some e⟩
    | Except.ok ip =>
      if isInstInt u then
        match pyIntOf u with
        | Except.error e => ⟨[], [], some e⟩
        | Except.ok _ => ⟨[], [], some PyErr.indexError⟩
      else
        match c.addportmapping ip u internalIp ip with
        | Except.error e =>
          ⟨[], [ClientCall.addportmapping ip u internalIp ip], some e⟩
        | Except.ok success =>
          ⟨[PyVal.pyDict [("internal_port", PyVal.pyInt ip),
                          ("external_port", PyVal.pyInt ip),
                          ("protocol", u),
                          ("success", success)]],
           [ClientCall.addportmapping ip u internalIp ip], none⟩
  | t :: u :: w :: rest3 =>
    match pyIntOf t with
    | Except.error e => ⟨[], [], some e⟩
    | Except.ok ip =>
      if isInstInt u then
        match pyIntOf u with
        | Except.error e => ⟨[], [], some e⟩
        | Except.ok ep =>
          match c.addportmapping ep w internalIp ip with
          | Except.error e =>
            ⟨[], [ClientCall.addportmapping ep w internalIp ip], some e⟩
          | Except.ok success =>
            let r := batchLoop c internalIp rest3
            ⟨PyVal.pyDict [("internal_port", PyVal.pyInt ip),
                           ("external_port", PyVal.pyInt ep),
                           ("protocol", w),
                           ("success", success)] :: r.results,
             ClientCall.addportmapping ep w internalIp ip :: r.calls,
             r.err⟩
      else
        match c.addportmapping ip u internalIp ip with
        | Except.error e =>
          ⟨[], [ClientCall.addportmapping ip u internalIp ip], some e⟩
        | Except.ok success =>
          let r := batchLoop c internalIp (w :: rest3)
          ⟨PyVal.pyDict [("internal_port", PyVal.pyInt ip),
                         ("external_port", PyVal.pyInt ip),
                         ("protocol", u),
                         ("success", success)] :: r.results,
           ClientCall.addportmapping ip u internalIp ip :: r.calls,
           r.err⟩

/-- Source: `add_multiple_port_mappings` (lines 306-358, the second
definition of the name, which is the one the class ends up with).  Dynamic
inputs: device, internal IP, then the token tail.  Under a truthy device
the batch loop runs over `inputs[2:]`; only when it completes without an
exception is the list of result dicts written to the single output slot. -/
def add_multiple_port_mappings_run (c : Client) (inputs : List PyVal) : RunResult :=
  match inputs with
  | upnp :: internalIp :: args =>
    if truthy upnp then
      let b := batchLoop c internalIp args
      match b.err with
      | some e => ⟨[], b.calls, some e⟩
      | none => ⟨[(0, PyVal.pyList b.results)], b.calls, none⟩
    else noEffect none
  | _ => noEffect (some PyErr.indexError)

/-- Source: `add_pinhole` (lines 362-396).  The decorator declares
`input_args=6`, but the body binds seven inputs: `inputs[0]`..`inputs[5]`
and then `lease_time = int(inputs[6])`.  Binding applies `int(...)` to
`inputs[2]` and `inputs[4]` before reaching `inputs[6]`, so with exactly
six supplied arguments the body raises `IndexError` there.  Under a truthy
device a `try` block calls `AddPinhole` and writes the returned unique id;
a raised exception is caught and only printed. -/
def add_pinhole_run (c : Client) (inputs : List PyVal) : RunResult :=
  match inputs with
  | upnp :: remoteIp :: remotePort :: internalIp :: internalPort :: protocol :: rest =>
    match pyIntOf remotePort with
    | Except.error e => noEffect (some e)
    | Except.ok rp =>
      match pyIntOf internalPort with
      | Except.error e => noEffect (some e)
      | Except.ok ipn =>
        match rest with
        | [] => noEffect (some PyErr.indexError)
        | leaseTime :: _ =>
          match pyIntOf leaseTime with
          | Except.error e => noEffect (some e)
          | Except.ok lt =>
            if truthy upnp then
              match c.addPinhole remoteIp rp internalIp ipn protocol lt with
              | Except.error _ =>
                ⟨[], [ClientCall.addPinhole remoteIp rp internalIp ipn protocol lt], none⟩
              | Except.ok uid =>
                ⟨[(0, uid)],
                 [ClientCall.addPinhole remoteIp rp internalIp ipn protocol lt], none⟩
            else noEffect none
  | _ => noEffect (some PyErr.indexError)

/-- Source: `update_pinhole` (lines 398-424).  Three inputs, one output.
Binding applies `int(...)` to the new lease time; under a truthy device a
`try` block calls `UpdatePinhole` and writes the raw result; exceptions are
caught and only printed. -/
def update_pinhole_run (c : Client) (inputs : List PyVal) : RunResult :=
  match inputs with
  | upnp :: uid :: newLease :: _ =>
    match pyIntOf newLease with
    | Except.error e => noEffect (some e)
    | Except.ok lt =>
      if truthy upnp then
        match c.updatePinhole uid lt with
        | Except.error _ => ⟨[], [ClientCall.updatePinhole uid lt], none⟩
        | Except.ok result => ⟨[(0, result)], [ClientCall.updatePinhole uid lt], none⟩
      else noEffect none
  | _ => noEffect (some PyErr.indexError)

/-- Source: `check_pinhole` (lines 429-453).  Two inputs, one output.
Under a truthy device a `try` block calls `CheckPinholeWorking` and writes
`bool(result)`; exceptions are caught and only printed. -/
def check_pinhole_run (c : Client) (inputs : List PyVal) : RunResult :=
  match inputs with
  | upnp :: uid :: _ =>
    if truthy upnp then
      match c.checkPinholeWorking uid with
      | Except.error _ => ⟨[], [ClientCall.checkPinholeWorking uid], none⟩
      | Except.ok result =>
        ⟨[(0, pyBoolOf result)], [ClientCall.checkPinholeWorking uid], none⟩
    else noEffect none
  | _ => noEffect (some PyErr.indexError)

/-- Source: `get_pinhole_packet_count` (lines 458-482).  Two inputs, one
output.  Under a truthy device a `try` block calls `GetPinholePackets` and
writes the raw count; exceptions are caught and only printed. -/
def get_pinhole_packet_count_run (c : Client) (inputs : List PyVal) : RunResult :=
  match inputs with
  | upnp :: uid :: _ =>
    if truthy upnp then
      match c.getPinholePackets uid with
      | Except.error _ => ⟨[], [ClientCall.getPinholePackets uid], none⟩
      | Except.ok count =>
        ⟨[(0, count)], [ClientCall.getPinholePackets uid], none⟩
    else noEffect none
  | _ => noEffect (some PyErr.indexError)

/-- Source: `delete_pinhole` (lines 486-510).  Two inputs, one output.
Under a truthy device a `try` block calls `DeletePinhole` and writes
`bool(result)`; exceptions are caught and only printed. -/
def delete_pinhole_run (c : Client) (inputs : List PyVal) : RunResult :=
  match inputs with
  | upnp :: uid :: _ =>
    if truthy upnp then
      match c.deletePinhole uid with
      | Except.error _ => ⟨[], [ClientCall.deletePinhole uid], none⟩
      | Except.ok result =>
        ⟨[(0, pyBoolOf result)], [ClientCall.deletePinhole uid], none⟩
    else noEffect none
  | _ => noEffect (some PyErr.indexError)

/-- Source: `get_firewall_status` (lines 546-570).  One input, two
outputs.  Under a truthy device a `try` block calls `GetFirewallStatus`,
unpacks the pair and writes `bool(...)` of both components; exceptions are
caught and only printed. -/
def get_firewall_status_run (c : Client) (inputs : List PyVal) : RunResult :=
  match inputs with
  | upnp :: _ =>
    if truthy upnp then
      match c.getFirewallStatus with
      | Except.error _ => ⟨[], [ClientCall.getFirewallStatus], none⟩
      | Except.ok fw =>
        ⟨[(0, pyBoolOf fw.1), (1, pyBoolOf fw.2)],
         [ClientCall.getFirewallStatus], none⟩
    else noEffect none
  | _ => noEffect (some PyErr.indexError)

/-- Source: `get_outbound_pinhole_timeout` (lines 571-603).  The decorator
declares `input_args=5`, but the body binds six inputs:
`inputs[0]`..`inputs[4]` and then `protocol = inputs[5]`.  Binding applies
`int(...)` to `inputs[2]` and `inputs[4]` first, so with exactly five
supplied arguments the body raises `IndexError` at `inputs[5]`.  Under a
truthy device a `try` block calls `GetOutboundPinholeTimeout` and writes
the timeout; exceptions are caught and only printed. -/
def get_outbound_pinhole_timeout_run (c : Client) (inputs : List PyVal) : RunResult :=
  match inputs with
  | upnp :: remoteIp :: remotePort :: internalIp :: internalPort :: rest =>
    match pyIntOf remotePort with
    | Except.error e => noEffect (some e)
    | Except.ok rp =>
      match pyIntOf internalPort with
      | Except.error e => noEffect (some e)
      | Except.ok ipn =>
        match rest with
        | [] => noEffect (some PyErr.indexError)
        | protocol :: _ =>
          if truthy upnp then
            match c.getOutboundPinholeTimeout remoteIp rp internalIp ipn protocol with
            | Except.error _ =>
              ⟨[], [ClientCall.getOutboundPinholeTimeout remoteIp rp internalIp ipn protocol],
               none⟩
            | Except.ok t =>
              ⟨[(0, t)],
               [ClientCall.getOutboundPinholeTimeout remoteIp rp internalIp ipn protocol],
               none⟩
          else noEffect none
  | _ => noEffect (some PyErr.indexError)

/-- Source: `get_presentation_url` (lines 606-628).  One input, one
output.  Under a truthy device the `urlbase` attribute is read inside a
`try` block (attribute access on the device object does not raise) and
written to the single output slot. -/
def get_presentation_url_run (c : Client) (inputs : List PyVal) : RunResult :=
  match inputs with
  | upnp :: _ =>
    if truthy upnp then ⟨[(0, c.urlbase)], [], none⟩
    else noEffect none
  | _ => noEffect (some PyErr.indexError)

/-- The primitives of `UpnpPrimitives` that take the UPnP device handle as
their first input — every primitive of the class except `discover`. -/
inductive Op where
  | add_port_mapping
  | delete_port_mapping
  | get_status
  | list_port_mappings
  | add_any_port_mapping
  | delete_port_range
  | add_multiple_port_mappings
  | add_pinhole
  | update_pinhole
  | check_pinhole
  | get_pinhole_packet_count
  | delete_pinhole
  | list_port_mappings_igd2
  | get_firewall_status
  | get_outbound_pinhole_timeout
  | get_presentation_url
deriving DecidableEq, Repr

/-- Dispatch one handle-taking primitive on a client behaviour, a loop
fuel (relevant only to the two enumeration primitives) and the resolved
input values. -/
def runOp (op : Op) (c : Client) (fuel : Nat) (inputs : List PyVal) : RunResult :=
  match op with
  | Op.add_port_mapping => add_port_mapping_run c inputs
  | Op.delete_port_mapping => delete_port_mapping_run c inputs
  | Op.get_status => get_status_run c inputs
  | Op.list_port_mappings => list_port_mappings_run c fuel inputs
  | Op.add_any_port_mapping => add_any_port_mapping_run c inputs
  | Op.delete_port_range => delete_port_range_run c inputs
  | Op.add_multiple_port_mappings => add_multiple_port_mappings_run c inputs
  | Op.add_pinhole => add_pinhole_run c inputs
  | Op.update_pinhole => update_pinhole_run c inputs
  | Op.check_pinhole => check_pinhole_run c inputs
  | Op.get_pinhole_packet_count => get_pinhole_packet_count_run c inputs
  | Op.delete_pinhole => delete_pinhole_run c inputs
  | Op.list_port_mappings_igd2 => list_port_mappings_igd2_run c fuel inputs
  | Op.get_firewall_status => get_firewall_status_run c inputs
  | Op.get_outbound_pinhole_timeout => get_outbound_pinhole_timeout_run c inputs
  | Op.get_presentation_url => get_presentation_url_run c inputs

/-- Modelled from the spec: the dispatching decorator `parsing_decorator`
(`nopasaran/decorators.py`, imported by the module but not part of the
primitives file) is specified to initialize "every declared output slot
... to an explicit unset sentinel before any device interaction is
attempted".  `dispatchOutputs n r` therefore reports the final values of
the `n` declared output slots of a run: the unset sentinel `PyVal.pyNone`
for every slot the primitive body never wrote, and the last written value
otherwise. -/
def dispatchOutputs (numOutputs : Nat) (r : RunResult) : List PyVal :=
  (List.range numOutputs).map (fun k => (slotValue r k).getD PyVal.pyNone)

/-- A gateway behaviour that acknowledges everything: discovery finds no
device, every mapping/pinhole call returns a truthy acknowledgment, and
enumeration reports an empty table. -/
def trivialClient : Client where
  discoverDev := Except.ok 0
  selectigd := Except.ok ()
  lanaddr := PyVal.pyStr "192.168.1.2"
  externalipaddress := Except.ok (PyVal.pyStr "203.0.113.7")
  addportmapping := fun _ _ _ _ => Except.ok (PyVal.pyBool true)
  deleteportmapping := fun _ _ => Except.ok (PyVal.pyBool true)
  addanyportmapping := fun _ _ _ _ _ => Except.ok (PyVal.pyInt 50000)
  statusinfo := Except.ok (PyVal.pyStr "Connected", PyVal.pyInt 5, PyVal.pyStr "ERROR_NONE")
  getgenericportmapping := fun _ => Except.ok PyVal.pyNone
  getListOfPortMappings := fun _ _ => Except.ok []
  addPinhole := fun _ _ _ _ _ _ => Except.ok (PyVal.pyStr "uid-1")
  updatePinhole := fun _ _ => Except.ok (PyVal.pyBool true)
  checkPinholeWorking := fun _ => Except.ok (PyVal.pyBool true)
  getPinholePackets := fun _ => Except.ok (PyVal.pyInt 0)
  deletePinhole := fun _ => Except.ok (PyVal.pyBool true)
  getFirewallStatus := Except.ok (PyVal.pyBool true, PyVal.pyBool true)
  getOutboundPinholeTimeout := fun _ _ _ _ _ => Except.ok (PyVal.pyInt 3600)
  urlbase := PyVal.pyStr "http://192.168.1.1:1900/rootDesc.xml"

/-- A gateway behaviour whose `addanyportmapping` raises. -/
def anyMappingRaisingClient : Client :=
  { trivialClient with
    addanyportmapping := fun _ _ _ _ _ => Except.error (PyErr.clientError "UPnPError 501") }

/-- A gateway behaviour that rejects exactly port 5001 on deletion and
acknowledges every other deletion. -/
def rejecting5001Client : Client :=
  { trivialClient with
    deleteportmapping := fun p _ =>
      if p = 5001 then Except.ok (PyVal.pyBool false) else Except.ok (PyVal.pyBool true) }

/-- The mapping record the sample enumeration device reports at index i. -/
def sampleMapping (i : Nat) : PyVal :=
  PyVal.pyList [PyVal.pyInt (8080 + (i : Int)), PyVal.pyStr "TCP"]

/-- An IGD:1 enumeration behaviour: three mappings at indices 0-2, then
absence (None) at index 3. -/
def threeThenAbsentClient : Client :=
  { trivialClient with
    getgenericportmapping := fun i =>
      if i < 3 then Except.ok (sampleMapping i) else Except.ok PyVal.pyNone }

/-- An IGD:1 enumeration behaviour: three mappings at indices 0-2, then a
raised exception at index 3. -/
def threeThenRaiseClient : Client :=
  { trivialClient with
    getgenericportmapping := fun i =>
      if i < 3 then Except.ok (sampleMapping i) else Except.error (PyErr.clientError "713") }

/-- An IGD:2 enumeration behaviour: one mapping per index for indices 0-2,
then an empty list at index 3. -/
def igd2ThreeThenEmptyClient : Client :=
  { trivialClient with
    getListOfPortMappings := fun i _ =>
      if i < 3 then Except.ok [sampleMapping i] else Except.ok [] }

/-- An IGD:2 enumeration behaviour: one mapping at index 0, then a raised
exception at index 1. -/
def igd2RaiseAfterOneClient : Client :=
  { trivialClient with
    getListOfPortMappings := fun i _ =>
      if i = 0 then Except.ok [sampleMapping 0] else Except.error (PyErr.clientError "713") }

/-- The handle-taking primitives whose device interaction is wrapped in an
exception handler (or, for `list_port_mappings`, whose per-probe handler
absorbs the exception as end of enumeration): for these, invoking the
primitive never propagates a gateway-client exception. -/
def exceptionHandledOps : List Op :=
  [Op.get_status, Op.list_port_mappings, Op.add_pinhole, Op.update_pinhole,
   Op.check_pinhole, Op.get_pinhole_packet_count, Op.delete_pinhole,
   Op.list_port_mappings_igd2, Op.get_firewall_status,
   Op.get_outbound_pinhole_timeout, Op.get_presentation_url]

/-- The token tail of the spec's batch-resolution example, after the
device / internal-IP prefix: `[80, "TCP", 443, 8443, "TCP"]`. -/
def exampleBatchInputs : List PyVal :=
  [PyVal.upnpDevice, PyVal.pyStr "192.168.1.5", PyVal.pyInt 80, PyVal.pyStr "TCP",
   PyVal.pyInt 443, PyVal.pyInt 8443, PyVal.pyStr "TCP"]

/-- Claim C3: the batch resolver parses the tail left to right by runtime
type — after reading a token as the internal port, a next token of runtime
integer type is consumed as the external port, any other next token leaves
the external port defaulted to the internal port and is read as the
protocol — and on the tokens `[80, "TCP", 443, 8443, "TCP"]` it resolves
exactly the two ordered triples (internal 80, external 80, TCP) and
(internal 443, external 8443, TCP), issuing one mapping attempt each, in
order. -/
theorem claim_C3 :
    (∀ (c : Client) (ip t u : PyVal) (rest : List PyVal) (n : Int),
      pyIntOf t = Except.ok n → isInstInt u = false →
      (batchLoop c ip (t :: u :: rest)).calls.head? =
        some (ClientCall.addportmapping n u ip n)) ∧
    (∀ (c : Client) (ip proto : PyVal) (rest : List PyVal) (n m : Int),
      (batchLoop c ip (PyVal.pyInt n :: PyVal.pyInt m :: proto :: rest)).calls.head? =
        some (ClientCall.addportmapping m proto ip n)) ∧
    (add_multiple_port_mappings_run trivialClient exampleBatchInputs).calls =
      [ClientCall.addportmapping 80 (PyVal.pyStr "TCP") (PyVal.pyStr "192.168.1.5") 80,
       ClientCall.addportmapping 8443 (PyVal.pyStr "TCP") (PyVal.pyStr "192.168.1.5") 443] ∧
    (add_multiple_port_mappings_run trivialClient exampleBatchInputs).writes =
      [(0, PyVal.pyList
        [PyVal.pyDict [("internal_port", PyVal.pyInt 80),
                       ("external_port", PyVal.pyInt 80),
                       ("protocol", PyVal.pyStr "TCP"),
                       ("success", PyVal.pyBool true)],
         PyVal.pyDict [("internal_port", PyVal.pyInt 443),
                       ("external_port", PyVal.pyInt 8443),
                       ("protocol", PyVal.pyStr "TCP"),
                       ("success", PyVal.pyBool true)]])] ∧
    (add_multiple_port_mappings_run trivialClient exampleBatchInputs).err = none := by
  refine ⟨?_, ?_, rfl, rfl, rfl⟩
  · intro c ip t u rest n ht hu
    cases rest with
    | nil =>
      simp only [batchLoop, ht, hu, Bool.false_eq_true, if_false]
      cases hcall : c.addportmapping n u ip n <;> simp [hcall]
    | cons w rest3 =>
      simp only [batchLoop, ht, hu, Bool.false_eq_true, if_false]
      cases hcall : c.addportmapping n u ip n <;> simp [hcall]
  · intro c ip proto rest n m
    simp only [batchLoop, pyIntOf, isInstInt, if_true]
    cases hcall : c.addportmapping m proto ip n <;> simp [hcall]

/-- Witness for claim C3 at a concrete group: token 80 followed by the
string token TCP defaults the external port to 80. -/
theorem claim_C3_witness :
    pyIntOf (PyVal.pyInt 80) = Except.ok 80 ∧
    isInstInt (PyVal.pyStr "TCP") = false ∧
    (batchLoop trivialClient (PyVal.pyStr "192.168.1.5")
      [PyVal.pyInt 80, PyVal.pyStr "TCP"]).calls.head? =
      some (ClientCall.addportmapping 80 (PyVal.pyStr "TCP") (PyVal.pyStr "192.168.1.5") 80) :=
  ⟨rfl, rfl, claim_C3.1 trivialClient (PyVal.pyStr "192.168.1.5") (PyVal.pyInt 80)
    (PyVal.pyStr "TCP") [] 80 rfl rfl⟩

/-- Claim C6 (code bug): `DeletePortRange(handle, 5000, 5002, "UDP")`
against a gateway rejecting port 5001 does not yield deleted =
[5000, 5002]; the body evaluates `deleted = []@staticmethod` and raises
`TypeError` before any deletion attempt, issuing zero device calls and
writing nothing (the per-port loop was pasted into the shadowed first
`add_multiple_port_mappings` definition instead). -/
theorem claim_C6 :
    (delete_port_range_run rejecting5001Client
      [PyVal.upnpDevice, PyVal.pyInt 5000, PyVal.pyInt 5002, PyVal.pyStr "UDP"]).err =
      some PyErr.typeError ∧
    (delete_port_range_run rejecting5001Client
      [PyVal.upnpDevice, PyVal.pyInt 5000, PyVal.pyInt 5002, PyVal.pyStr "UDP"]).calls = [] ∧
    (delete_port_range_run rejecting5001Client
      [PyVal.upnpDevice, PyVal.pyInt 5000, PyVal.pyInt 5002, PyVal.pyStr "UDP"]).writes = [] :=
  ⟨rfl, rfl, rfl⟩

/-- Claim C8 (code bug): after a successful `AddMapping` for
(8080, TCP), `DeleteMapping` on the same pair against a device that
acknowledges the deletion does not set its success-flag output: the
`if upnp:` block of `delete_port_mapping` is dedented to class level, so
the method binds its inputs and returns with no device call and no write
(and the escaped class-level block makes the module raise `NameError` on
import). -/
theorem claim_C8 :
    (add_port_mapping_run trivialClient
      [PyVal.upnpDevice, PyVal.pyStr "192.168.1.2", PyVal.pyStr "203.0.113.7",
       PyVal.pyInt 8080, PyVal.pyInt 8080, PyVal.pyStr "TCP"]).writes =
      [(0, PyVal.pyStr "203.0.113.7"), (1, PyVal.pyInt 8080)] ∧
    (delete_port_mapping_run trivialClient
      [PyVal.upnpDevice, PyVal.pyInt 8080, PyVal.pyStr "TCP"]).writes = [] ∧
    (delete_port_mapping_run trivialClient
      [PyVal.upnpDevice, PyVal.pyInt 8080, PyVal.pyStr "TCP"]).calls = [] ∧
    (delete_port_mapping_run trivialClient
      [PyVal.upnpDevice, PyVal.pyInt 8080, PyVal.pyStr "TCP"]).err = none :=
  ⟨rfl, rfl, rfl, rfl⟩

/-- Declared input arity of `add_pinhole` (its `parsing_decorator` line). -/
def addPinholeDeclaredInputArity : Nat := 6

/-- Declared input arity of `get_outbound_pinhole_timeout` (its
`parsing_decorator` line). -/
def outboundTimeoutDeclaredInputArity : Nat := 5

/-- Claim C9 (code bug): `add_pinhole` declares `input_args=6` but binds
`inputs[6]`, and `get_outbound_pinhole_timeout` declares `input_args=5`
but binds `inputs[5]`: invoked with exactly the declared number of
resolved arguments, each body indexes one slot past its declared arity and
raises `IndexError` with no device call and no output written, instead of
binding the seven (resp. six) inputs of the documented signature. -/
theorem claim_C9 :
    ([PyVal.upnpDevice, PyVal.pyStr "203.0.113.9", PyVal.pyInt 9000,
      PyVal.pyStr "192.168.1.5", PyVal.pyInt 8080, PyVal.pyStr "TCP"] : List PyVal).length =
      addPinholeDeclaredInputArity ∧
    (add_pinhole_run trivialClient
      [PyVal.upnpDevice, PyVal.pyStr "203.0.113.9", PyVal.pyInt 9000,
       PyVal.pyStr "192.168.1.5", PyVal.pyInt 8080, PyVal.pyStr "TCP"]).err =
      some PyErr.indexError ∧
    (add_pinhole_run trivialClient
      [PyVal.upnpDevice, PyVal.pyStr "203.0.113.9", PyVal.pyInt 9000,
       PyVal.pyStr "192.168.1.5", PyVal.pyInt 8080, PyVal.pyStr "TCP"]).calls = [] ∧
    (add_pinhole_run trivialClient
      [PyVal.upnpDevice, PyVal.pyStr "203.0.113.9", PyVal.pyInt 9000,
       PyVal.pyStr "192.168.1.5", PyVal.pyInt 8080, PyVal.pyStr "TCP"]).writes = [] ∧
    ([PyVal.upnpDevice, PyVal.pyStr "203.0.113.9", PyVal.pyInt 9000,
      PyVal.pyStr "192.168.1.5", PyVal.pyInt 8080] : List PyVal).length =
      outboundTimeoutDeclaredInputArity ∧
    (get_outbound_pinhole_timeout_run trivialClient
      [PyVal.upnpDevice, PyVal.pyStr "203.0.113.9", PyVal.pyInt 9000,
       PyVal.pyStr "192.168.1.5", PyVal.pyInt 8080]).err = some PyErr.indexError ∧
    (get_outbound_pinhole_timeout_run trivialClient
      [PyVal.upnpDevice, PyVal.pyStr "203.0.113.9", PyVal.pyInt 9000,
       PyVal.pyStr "192.168.1.5", PyVal.pyInt 8080]).calls = [] ∧
    (get_outbound_pinhole_timeout_run trivialClient
      [PyVal.upnpDevice, PyVal.pyStr "203.0.113.9", PyVal.pyInt 9000,
       PyVal.pyStr "192.168.1.5", PyVal.pyInt 8080]).writes = [] :=
  ⟨rfl, rfl, rfl, rfl, rfl, rfl, rfl, rfl⟩

/-- Claim C7 (counterexample): against an IGD:2 device that returns one
mapping at index 0 and raises at index 1, `list_port_mappings_igd2`
terminates normally but never sets its output — the collected record is
discarded, contradicting "the output is always set to the records
collected so far". -/
theorem claim_C7_counterexample :
    (list_port_mappings_igd2_run igd2RaiseAfterOneClient 10 [PyVal.upnpDevice]).writes = [] ∧
    (list_port_mappings_igd2_run igd2RaiseAfterOneClient 10 [PyVal.upnpDevice]).err = none ∧
    (list_port_mappings_igd2_run igd2RaiseAfterOneClient 10 [PyVal.upnpDevice]).calls =
      [ClientCall.getListOfPortMappings 0 1, ClientCall.getListOfPortMappings 1 1] :=
  ⟨rfl, rfl, rfl⟩

/-- Reindexing a range map: the element at offset 0 split off and the
window shifted by one. -/
theorem rangeMapShift {α : Type} (g : Nat → α) (k start : Nat) :
    (List.range (k + 1)).map (fun i => g (start + i)) =
      g start :: (List.range k).map (fun i => g (start + 1 + i)) := by
  rw [List.range_succ_eq_map, List.map_cons, List.map_map]
  congr 1
  refine List.map_congr_left ?_
  intro i _
  simp only [Function.comp_apply]
  congr 1
  omega

/-- The device behaviour ends IGD:1 enumeration at index j: probing j
either raises or returns None. -/
def probeStopsAt (c : Client) (j : Nat) : Prop :=
  (∃ e, c.getgenericportmapping j = Except.error e) ∨
  (∃ v, c.getgenericportmapping j = Except.ok v ∧ isNone v = true)

/-- Characterization of the IGD:1 probe loop for an arbitrary device
behaviour: if the device returns a real mapping at each of the k indices
from `start` and stops (absence or exception) at `start + k`, the loop
probes exactly those k+1 indices in order and collects the k mappings in
index order. -/
theorem probeMappings_spec (c : Client) (m : Nat → PyVal) :
    ∀ (k start fuel : Nat), k < fuel →
    (∀ i, i < k → c.getgenericportmapping (start + i) = Except.ok (m (start + i)) ∧
      isNone (m (start + i)) = false) →
    probeStopsAt c (start + k) →
    probeMappings c fuel start =
      ((List.range (k + 1)).map (fun i => ClientCall.getgenericportmapping (start + i)),
       some ((List.range k).map (fun i => m (start + i)))) := by
  intro k
  induction k with
  | zero =>
    intro start fuel hf _ hstop
    obtain ⟨f, rfl⟩ : ∃ f, fuel = f + 1 := ⟨fuel - 1, by omega⟩
    rcases hstop with ⟨e, he⟩ | ⟨v, hv, hn⟩
    · rw [Nat.add_zero] at he
      simp [probeMappings, he, List.range_succ]
    · rw [Nat.add_zero] at hv
      simp [probeMappings, hv, hn, List.range_succ]
  | succ k ih =>
    intro start fuel hf hall hstop
    obtain ⟨f, rfl⟩ : ∃ f, fuel = f + 1 := ⟨fuel - 1, by omega⟩
    have hall' : ∀ i, i < k → c.getgenericportmapping (start + 1 + i) =
        Except.ok (m (start + 1 + i)) ∧ isNone (m (start + 1 + i)) = false := by
      intro i hi
      have h := hall (i + 1) (by omega)
      have e : start + (i + 1) = start + 1 + i := by omega
      rwa [e] at h
    have hstop' : probeStopsAt c (start + 1 + k) := by
      have e : start + 1 + k = start + (k + 1) := by omega
      rw [e]
      exact hstop
    have hrec := ih (start + 1) f (by omega) hall' hstop'
    obtain ⟨h0, hn0⟩ := hall 0 (by omega)
    rw [Nat.add_zero] at h0 hn0
    simp only [probeMappings, h0, hn0, Bool.false_eq_true, if_false, hrec]
    rw [rangeMapShift (fun j => ClientCall.getgenericportmapping j) (k + 1) start,
        rangeMapShift m k start]
    simp

/-- Characterization of the IGD:2 probe loop ending on an empty result:
nonempty entry lists at the k indices from `start`, then an empty result,
give exactly those k+1 probes and the concatenated entries in index
order. -/
theorem probeMappingsIgd2_spec_done (c : Client) (es : Nat → List PyVal) :
    ∀ (k start fuel : Nat), k < fuel →
    (∀ i, i < k → c.getListOfPortMappings (start + i) 1 = Except.ok (es (start + i)) ∧
      (es (start + i)).isEmpty = false) →
    c.getListOfPortMappings (start + k) 1 = Except.ok [] →
    probeMappingsIgd2 c fuel start =
      ((List.range (k + 1)).map (fun i => ClientCall.getListOfPortMappings (start + i) 1),
       Igd2Out.listDone ((List.range k).map (fun i => es (start + i))).flatten) := by
  intro k
  induction k with
  | zero =>
    intro start fuel hf _ hstop
    obtain ⟨f, rfl⟩ : ∃ f, fuel = f + 1 := ⟨fuel - 1, by omega⟩
    rw [Nat.add_zero] at hstop
    simp [probeMappingsIgd2, hstop, List.range_succ]
  | succ k ih =>
    intro start fuel hf hall hstop
    obtain ⟨f, rfl⟩ : ∃ f, fuel = f + 1 := ⟨fuel - 1, by omega⟩
    have hall' : ∀ i, i < k → c.getListOfPortMappings (start + 1 + i) 1 =
        Except.ok (es (start + 1 + i)) ∧ (es (start + 1 + i)).isEmpty = false := by
      intro i hi
      have h := hall (i + 1) (by omega)
      have e : start + (i + 1) = start + 1 + i := by omega
      rwa [e] at h
    have hstop' : c.getListOfPortMappings (start + 1 + k) 1 = Except.ok [] := by
      have e : start + 1 + k = start + (k + 1) := by omega
      rw [e]
      exact hstop
    have hrec := ih (start + 1) f (by omega) hall' hstop'
    obtain ⟨h0, hn0⟩ := hall 0 (by omega)
    rw [Nat.add_zero] at h0 hn0
    simp only [probeMappingsIgd2, h0, hn0, Bool.false_eq_true, if_false, hrec]
    rw [rangeMapShift (fun j => ClientCall.getListOfPortMappings j 1) (k + 1) start,
        rangeMapShift es k start]
    simp

/-- Characterization of the IGD:2 probe loop ending on an exception:
nonempty entry lists at the k indices from `start`, then a raised
exception, give exactly those k+1 probes and the escaping exception. -/
theorem probeMappingsIgd2_spec_raised (c : Client) (es : Nat → List PyVal) (e : PyErr) :
    ∀ (k start fuel : Nat), k < fuel →
    (∀ i, i < k → c.getListOfPortMappings (start + i) 1 = Except.ok (es (start + i)) ∧
      (es (start + i)).isEmpty = false) →
    c.getListOfPortMappings (start + k) 1 = Except.error e →
    probeMappingsIgd2 c fuel start =
      ((List.range (k + 1)).map (fun i => ClientCall.getListOfPortMappings (start + i) 1),
       Igd2Out.raised e) := by
  intro k
  induction k with
  | zero =>
    intro start fuel hf _ hstop
    obtain ⟨f, rfl⟩ : ∃ f, fuel = f + 1 := ⟨fuel - 1, by omega⟩
    rw [Nat.add_zero] at hstop
    simp [probeMappingsIgd2, hstop, List.range_succ]
  | succ k ih =>
    intro start fuel hf hall hstop
    obtain ⟨f, rfl⟩ : ∃ f, fuel = f + 1 := ⟨fuel - 1, by omega⟩
    have hall' : ∀ i, i < k → c.getListOfPortMappings (start + 1 + i) 1 =
        Except.ok (es (start + 1 + i)) ∧ (es (start + 1 + i)).isEmpty = false := by
      intro i hi
      have h := hall (i + 1) (by omega)
      have heq : start + (i + 1) = start + 1 + i := by omega
      rwa [heq] at h
    have hstop' : c.getListOfPortMappings (start + 1 + k) 1 = Except.error e := by
      have heq : start + 1 + k = start + (k + 1) := by omega
      rw [heq]
      exact hstop
    have hrec := ih (start + 1) f (by omega) hall' hstop'
    obtain ⟨h0, hn0⟩ := hall 0 (by omega)
    rw [Nat.add_zero] at h0 hn0
    simp only [probeMappingsIgd2, h0, hn0, Bool.false_eq_true, if_false, hrec]
    rw [rangeMapShift (fun j => ClientCall.getListOfPortMappings j 1) (k + 1) start]

/-- Claim C7 (amended): for every device behaviour, every fuel budget
covering the stopping index, every truthy handle and every argument tail:
both enumeration primitives query successive indices from 0 and stop at
the first empty/absent result or the first device exception, treating
either as end of list and returning normally; `list_port_mappings`
always sets its output to the records collected so far, in index order —
for either kind of stop — while `list_port_mappings_igd2` sets its output
to the collected records when the loop ends on an empty result but leaves
its output unset when a probe raises. -/
theorem claim_C7 :
    (∀ (c : Client) (fuel k : Nat) (m : Nat → PyVal) (upnp : PyVal) (rest : List PyVal),
      truthy upnp = true → k < fuel →
      (∀ i, i < k → c.getgenericportmapping i = Except.ok (m i) ∧
        isNone (m i) = false) →
      probeStopsAt c k →
      (list_port_mappings_run c fuel (upnp :: rest)).writes =
        [(0, PyVal.pyList ((List.range k).map m))] ∧
      (list_port_mappings_run c fuel (upnp :: rest)).calls =
        (List.range (k + 1)).map ClientCall.getgenericportmapping ∧
      (list_port_mappings_run c fuel (upnp :: rest)).err = none) ∧
    (∀ (c : Client) (fuel k : Nat) (es : Nat → List PyVal) (upnp : PyVal)
        (rest : List PyVal),
      truthy upnp = true → k < fuel →
      (∀ i, i < k → c.getListOfPortMappings i 1 = Except.ok (es i) ∧
        (es i).isEmpty = false) →
      c.getListOfPortMappings k 1 = Except.ok [] →
      (list_port_mappings_igd2_run c fuel (upnp :: rest)).writes =
        [(0, PyVal.pyList ((List.range k).map es).flatten)] ∧
      (list_port_mappings_igd2_run c fuel (upnp :: rest)).calls =
        (List.range (k + 1)).map (fun i => ClientCall.getListOfPortMappings i 1) ∧
      (list_port_mappings_igd2_run c fuel (upnp :: rest)).err = none) ∧
    (∀ (c : Client) (fuel k : Nat) (es : Nat → List PyVal) (e : PyErr) (upnp : PyVal)
        (rest : List PyVal),
      truthy upnp = true → k < fuel →
      (∀ i, i < k → c.getListOfPortMappings i 1 = Except.ok (es i) ∧
        (es i).isEmpty = false) →
      c.getListOfPortMappings k 1 = Except.error e →
      (list_port_mappings_igd2_run c fuel (upnp :: rest)).writes = [] ∧
      (list_port_mappings_igd2_run c fuel (upnp :: rest)).calls =
        (List.range (k + 1)).map (fun i => ClientCall.getListOfPortMappings i 1) ∧
      (list_port_mappings_igd2_run c fuel (upnp :: rest)).err = none) := by
  refine ⟨?_, ?_, ?_⟩
  · intro c fuel k m upnp rest ht hf hall hstop
    have hp := probeMappings_spec c m k 0 fuel hf
      (by intro i hi; simpa using hall i hi) (by simpa using hstop)
    unfold list_port_mappings_run
    simp [ht, hp]
  · intro c fuel k es upnp rest ht hf hall hstop
    have hp := probeMappingsIgd2_spec_done c es k 0 fuel hf
      (by intro i hi; simpa using hall i hi) (by simpa using hstop)
    unfold list_port_mappings_igd2_run
    simp [ht, hp]
  · intro c fuel k es e upnp rest ht hf hall hstop
    have hp := probeMappingsIgd2_spec_raised c es e k 0 fuel hf
      (by intro i hi; simpa using hall i hi) (by simpa using hstop)
    unfold list_port_mappings_igd2_run
    simp [ht, hp]

/-- Witness for claim C7: the three-mappings-then-absence device yields
exactly the three records in index order, and the IGD:2 device raising
after one mapping leaves the output unset. -/
theorem claim_C7_witness :
    (list_port_mappings_run threeThenAbsentClient 10 [PyVal.upnpDevice]).writes =
      [(0, PyVal.pyList ((List.range 3).map sampleMapping))] ∧
    (list_port_mappings_igd2_run igd2RaiseAfterOneClient 10 [PyVal.upnpDevice]).writes =
      [] :=
  ⟨(claim_C7.1 threeThenAbsentClient 10 3 sampleMapping PyVal.upnpDevice [] rfl
      (by omega)
      (by intro i hi; exact ⟨by simp [threeThenAbsentClient, hi], rfl⟩)
      (Or.inr ⟨PyVal.pyNone, by simp [threeThenAbsentClient], rfl⟩)).1,
   (claim_C7.2.2 igd2RaiseAfterOneClient 10 1 (fun i => [sampleMapping i])
      (PyErr.clientError "713") PyVal.upnpDevice [] rfl (by omega)
      (by
        intro i hi
        have hz : i = 0 := by omega
        subst hz
        exact ⟨rfl, rfl⟩)
      rfl).1⟩



/-- Claim C1 (counterexample): when the gateway client's
`addanyportmapping` raises, `add_any_port_mapping` propagates the
exception to the invoking flow instead of returning normally — there is no
exception handler around that device call. -/
theorem claim_C1_counterexample :
    (add_any_port_mapping_run anyMappingRaisingClient
      [PyVal.upnpDevice, PyVal.pyStr "192.168.1.5", PyVal.pyInt 8080, PyVal.pyInt 8080,
       PyVal.pyStr "TCP", PyVal.pyInt 0]).err = some (PyErr.clientError "UPnPError 501") :=
  rfl

/-- Claim C2 (counterexample): on the malformed tail `[80, "TCP", 443]`
(a trailing internal port with no protocol token), the batch call does
fail with no output written, but one mapping attempt for the complete
first group has already been issued against the gateway — not zero. -/
theorem claim_C2_counterexample :
    (add_multiple_port_mappings_run trivialClient
      [PyVal.upnpDevice, PyVal.pyStr "192.168.1.5", PyVal.pyInt 80, PyVal.pyStr "TCP",
       PyVal.pyInt 443]).calls =
      [ClientCall.addportmapping 80 (PyVal.pyStr "TCP") (PyVal.pyStr "192.168.1.5") 80] ∧
    (add_multiple_port_mappings_run trivialClient
      [PyVal.upnpDevice, PyVal.pyStr "192.168.1.5", PyVal.pyInt 80, PyVal.pyStr "TCP",
       PyVal.pyInt 443]).err = some PyErr.indexError ∧
    (add_multiple_port_mappings_run trivialClient
      [PyVal.upnpDevice, PyVal.pyStr "192.168.1.5", PyVal.pyInt 80, PyVal.pyStr "TCP",
       PyVal.pyInt 443]).writes = [] :=
  ⟨rfl, rfl, rfl⟩

/-- Claim C2 (amended): a batch tail that does not decompose into complete
(internal_port, [external_port], protocol) groups makes the whole batch
call fail — the `IndexError` of the dangling group propagates uncaught and
the output is never written, so there is no partial output; however,
mapping attempts for the complete groups parsed before the malformed
remainder have already been issued against the gateway, and zero attempts
are guaranteed only when the very first group is incomplete. -/
theorem claim_C2 :
    (∀ (c : Client) (inputs : List PyVal),
      (add_multiple_port_mappings_run c inputs).err ≠ none →
      (add_multiple_port_mappings_run c inputs).writes = []) ∧
    (add_multiple_port_mappings_run trivialClient
      [PyVal.upnpDevice, PyVal.pyStr "192.168.1.5", PyVal.pyInt 80]).err =
      some PyErr.indexError ∧
    (add_multiple_port_mappings_run trivialClient
      [PyVal.upnpDevice, PyVal.pyStr "192.168.1.5", PyVal.pyInt 80]).calls = [] := by
  refine ⟨?_, rfl, rfl⟩
  intro c inputs h
  rcases inputs with _ | ⟨u, _ | ⟨ip, args⟩⟩
  · rfl
  · rfl
  · by_cases ht : truthy u
    · simp only [add_multiple_port_mappings_run, ht, if_true] at h ⊢
      cases hb : (batchLoop c ip args).err with
      | none => simp [hb] at h
      | some e => simp [hb]
    · simp [add_multiple_port_mappings_run, ht, noEffect]

/-- Witness for claim C2 at the dangling single-token tail. -/
theorem claim_C2_witness :
    (add_multiple_port_mappings_run trivialClient
      [PyVal.upnpDevice, PyVal.pyStr "192.168.1.5", PyVal.pyInt 80]).err ≠ none ∧
    (add_multiple_port_mappings_run trivialClient
      [PyVal.upnpDevice, PyVal.pyStr "192.168.1.5", PyVal.pyInt 80]).writes = [] :=
  ⟨by decide, claim_C2.1 trivialClient
    [PyVal.upnpDevice, PyVal.pyStr "192.168.1.5", PyVal.pyInt 80] (by decide)⟩

/-- Claim C5: every declared output slot of a dispatched primitive holds
the unset sentinel unless the primitive body overwrote it (the
initialization before any device interaction is the dispatcher contract
modelled by `dispatchOutputs`); in particular `discover` with zero devices
found performs no write, so all three of its outputs are at their
default. -/
theorem claim_C5 (c : Client) (n : Int) (hd : c.discoverDev = Except.ok n)
    (hn : ¬ n > 0) :
    dispatchOutputs 3 (discover_run c) = [PyVal.pyNone, PyVal.pyNone, PyVal.pyNone] ∧
    (discover_run c).writes = [] ∧
    (discover_run c).calls = [ClientCall.discoverCall] := by
  have hrun : discover_run c = ⟨[], [ClientCall.discoverCall], none⟩ := by
    unfold discover_run
    rw [hd]
    simp [hn]
  rw [hrun]
  exact ⟨rfl, rfl, rfl⟩

/-- Witness for claim C5: the sample gateway behaviour discovers zero
devices. -/
theorem claim_C5_witness :
    trivialClient.discoverDev = Except.ok 0 ∧ ¬ (0 : Int) > 0 ∧
    dispatchOutputs 3 (discover_run trivialClient) =
      [PyVal.pyNone, PyVal.pyNone, PyVal.pyNone] :=
  ⟨rfl, by decide, (claim_C5 trivialClient 0 rfl (by decide)).1⟩

/-- Claim C10: with a truthy handle, whenever the client's
`addanyportmapping` returns normally, `add_any_port_mapping` writes the
returned value — whatever it is, falsy values included — to its single
output slot with no truthiness check; the output is left unwritten exactly
when the handle is falsy or the call raises (and only the raising case
propagates an error). -/
theorem claim_C10 (c : Client) (upnp ipAddr ipTok spTok proto dTok : PyVal)
    (a b d : Int) (hip : pyIntOf ipTok = Except.ok a)
    (hsp : pyIntOf spTok = Except.ok b) (hdur : pyIntOf dTok = Except.ok d) :
    (truthy upnp = true →
      (∀ v, c.addanyportmapping b proto ipAddr a d = Except.ok v →
        (add_any_port_mapping_run c [upnp, ipAddr, ipTok, spTok, proto, dTok]).writes =
          [(0, v)] ∧
        (add_any_port_mapping_run c [upnp, ipAddr, ipTok, spTok, proto, dTok]).err =
          none) ∧
      (∀ e, c.addanyportmapping b proto ipAddr a d = Except.error e →
        (add_any_port_mapping_run c [upnp, ipAddr, ipTok, spTok, proto, dTok]).writes =
          [] ∧
        (add_any_port_mapping_run c [upnp, ipAddr, ipTok, spTok, proto, dTok]).err =
          some e)) ∧
    (truthy upnp = false →
      (add_any_port_mapping_run c [upnp, ipAddr, ipTok, spTok, proto, dTok]).writes =
        [] ∧
      (add_any_port_mapping_run c [upnp, ipAddr, ipTok, spTok, proto, dTok]).err =
        none) := by
  constructor
  · intro ht
    constructor
    · intro v hv
      simp [add_any_port_mapping_run, hip, hsp, hdur, ht, hv]
    · intro e he
      simp [add_any_port_mapping_run, hip, hsp, hdur, ht, he]
  · intro ht
    simp [add_any_port_mapping_run, hip, hsp, hdur, ht, noEffect]

/-- A gateway behaviour whose `addanyportmapping` returns the falsy
assigned port 0. -/
def anyMappingZeroClient : Client :=
  { trivialClient with
    addanyportmapping := fun _ _ _ _ _ => Except.ok (PyVal.pyInt 0) }

/-- Witness for claim C10: the falsy returned value 0 is still written to
the output slot. -/
theorem claim_C10_witness :
    truthy PyVal.upnpDevice = true ∧
    anyMappingZeroClient.addanyportmapping 8080 (PyVal.pyStr "TCP")
      (PyVal.pyStr "192.168.1.5") 8080 0 = Except.ok (PyVal.pyInt 0) ∧
    (add_any_port_mapping_run anyMappingZeroClient
      [PyVal.upnpDevice, PyVal.pyStr "192.168.1.5", PyVal.pyInt 8080, PyVal.pyInt 8080,
       PyVal.pyStr "TCP", PyVal.pyInt 0]).writes = [(0, PyVal.pyInt 0)] :=
  ⟨rfl, rfl,
    (((claim_C10 anyMappingZeroClient PyVal.upnpDevice (PyVal.pyStr "192.168.1.5")
        (PyVal.pyInt 8080) (PyVal.pyInt 8080) (PyVal.pyStr "TCP") (PyVal.pyInt 0)
        8080 8080 0 rfl rfl rfl).1 rfl).1 (PyVal.pyInt 0) rfl).1⟩

/-- Claim C4: for every handle-taking primitive, a falsy (unset/invalid)
handle input means no gateway-client call is made and no output slot is
ever written — every declared output keeps its default/unset value. -/
theorem claim_C4 (op : Op) (c : Client) (fuel : Nat) (h : PyVal)
    (rest : List PyVal) (hf : truthy h = false) :
    (runOp op c fuel (h :: rest)).calls = [] ∧
    (runOp op c fuel (h :: rest)).writes = [] := by
  cases op <;> simp only [runOp] <;>
    (first
      | unfold add_port_mapping_run
      | unfold delete_port_mapping_run
      | unfold get_status_run
      | unfold list_port_mappings_run
      | unfold add_any_port_mapping_run
      | unfold delete_port_range_run
      | unfold add_multiple_port_mappings_run
      | unfold add_pinhole_run
      | unfold update_pinhole_run
      | unfold check_pinhole_run
      | unfold get_pinhole_packet_count_run
      | unfold delete_pinhole_run
      | unfold list_port_mappings_igd2_run
      | unfold get_firewall_status_run
      | unfold get_outbound_pinhole_timeout_run
      | unfold get_presentation_url_run) <;>
    (repeat' split) <;> simp_all [noEffect]

/-- Witness for claim C4: `add_port_mapping` with an unset (None) handle. -/
theorem claim_C4_witness :
    truthy PyVal.pyNone = false ∧
    (runOp Op.add_port_mapping trivialClient 0
      (PyVal.pyNone :: [PyVal.pyStr "192.168.1.2", PyVal.pyStr "203.0.113.7",
        PyVal.pyInt 8080, PyVal.pyInt 8080, PyVal.pyStr "TCP"])).calls = [] ∧
    (runOp Op.add_port_mapping trivialClient 0
      (PyVal.pyNone :: [PyVal.pyStr "192.168.1.2", PyVal.pyStr "203.0.113.7",
        PyVal.pyInt 8080, PyVal.pyInt 8080, PyVal.pyStr "TCP"])).writes = [] :=
  ⟨rfl,
    (claim_C4 Op.add_port_mapping trivialClient 0 PyVal.pyNone
      [PyVal.pyStr "192.168.1.2", PyVal.pyStr "203.0.113.7",
       PyVal.pyInt 8080, PyVal.pyInt 8080, PyVal.pyStr "TCP"] rfl).1,
    (claim_C4 Op.add_port_mapping trivialClient 0 PyVal.pyNone
      [PyVal.pyStr "192.168.1.2", PyVal.pyStr "203.0.113.7",
       PyVal.pyInt 8080, PyVal.pyInt 8080, PyVal.pyStr "TCP"] rfl).2⟩

/-- A failing `int(...)` conversion raises only `ValueError` or
`TypeError`, never a gateway-client exception. -/
theorem pyIntOf_error_cases (v : PyVal) (e : PyErr)
    (h : pyIntOf v = Except.error e) :
    e = PyErr.valueError ∨ e = PyErr.typeError := by
  cases v with
  | pyInt n => simp [pyIntOf] at h
  | pyBool b => simp [pyIntOf] at h
  | pyStr s =>
    cases hs : s.toInt? with
    | none =>
      simp [pyIntOf, hs] at h
      exact Or.inl h.symm
    | some n => simp [pyIntOf, hs] at h
  | pyNone =>
    simp [pyIntOf] at h
    exact Or.inr h.symm
  | pyList xs =>
    simp [pyIntOf] at h
    exact Or.inr h.symm
  | pyDict es =>
    simp [pyIntOf] at h
    exact Or.inr h.symm
  | upnpDevice =>
    simp [pyIntOf] at h
    exact Or.inr h.symm

/-- Claim C1 (amended): the primitives whose device interaction is
inside an exception handler — get_status, list_port_mappings (whose
per-probe handler turns an exception into end of enumeration),
add_pinhole, update_pinhole, check_pinhole, get_pinhole_packet_count,
delete_pinhole, list_port_mappings_igd2, get_firewall_status,
get_outbound_pinhole_timeout and get_presentation_url — never propagate a
gateway-client exception to the invoking flow, for every client behaviour
and every argument list; discover, add_port_mapping, add_any_port_mapping
and add_multiple_port_mappings have no such handler and do propagate
client exceptions. -/
theorem claim_C1 :
    ∀ op ∈ exceptionHandledOps, ∀ (c : Client) (fuel : Nat) (inputs : List PyVal)
      (msg : String),
      (runOp op c fuel inputs).err ≠ some (PyErr.clientError msg) := by
  intro op hop c fuel inputs msg
  fin_cases hop <;> simp only [runOp] <;>
    (first
      | unfold get_status_run
      | unfold list_port_mappings_run
      | unfold add_pinhole_run
      | unfold update_pinhole_run
      | unfold check_pinhole_run
      | unfold get_pinhole_packet_count_run
      | unfold delete_pinhole_run
      | unfold list_port_mappings_igd2_run
      | unfold get_firewall_status_run
      | unfold get_outbound_pinhole_timeout_run
      | unfold get_presentation_url_run) <;>
    (repeat' split) <;> simp_all [noEffect] <;>
    (rename_i e heq
     rcases pyIntOf_error_cases _ _ heq with he | he <;> simp [he])

/-- Witness for claim C1: `get_status` is among the handled primitives and
propagates nothing even when every client method raises. -/
theorem claim_C1_witness :
    Op.get_status ∈ exceptionHandledOps ∧
    (runOp Op.get_status trivialClient 0 [PyVal.upnpDevice]).err ≠
      some (PyErr.clientError "UPnPError 501") :=
  ⟨by simp [exceptionHandledOps],
   claim_C1 Op.get_status (by simp [exceptionHandledOps]) trivialClient 0
     [PyVal.upnpDevice] "UPnPError 501"⟩
